import Mathlib

/-!
Shallow embedding of the request/quota coordination layer of the
`anidio/transcribe` frontend (`src/frontend/src/App.js`).

The embedded functions mirror the source handlers:
* `buyProVersion` — the upgrade action (line 56-65 of App.js);
* `handleApiCall` — the shared request helper (line 68-92);
* `handleTranscribe`, `handleSummarize`, `handleEnrich` — the three
  stage handlers at the UI boundary (lines 94-139).

The network is modelled as an oracle argument `NetResult` supplied to each
invocation: the single axios call either succeeds with a response payload or
fails with an optional HTTP status (`error.response?.status`) and an optional
server detail string (`error.response?.data?.detail`).  React state setters
become explicit record updates on `AppState`; observable UI events (the
outgoing request with its optional `X-PRO-KEY` header, and the success/error
toasts) are collected in an event list.
-/

/-- The three pipeline stages (the `action` argument of `handleApiCall`). -/
inductive Stage
  | transcribe
  | summarize
  | enrich
deriving DecidableEq, Repr

/-- The string name of a stage, as interpolated into the generic error
toast (backtick template on line 87 of App.js). -/
def Stage.name : Stage → String
  | .transcribe => "transcribe"
  | .summarize => "summarize"
  | .enrich => "enrich"

/-- The per-stage loading map (the `loading` useState object). -/
structure LoadingMap where
  transcribe : Bool
  summarize : Bool
  enrich : Bool
deriving DecidableEq, Repr

/-- Read one stage's flag. -/
def LoadingMap.get (m : LoadingMap) : Stage → Bool
  | .transcribe => m.transcribe
  | .summarize => m.summarize
  | .enrich => m.enrich

/-- Write one stage's flag (the computed-key spread in `setLoadingState`). -/
def LoadingMap.set (m : LoadingMap) (a : Stage) (v : Bool) : LoadingMap :=
  match a with
  | .transcribe => { m with transcribe := v }
  | .summarize => { m with summarize := v }
  | .enrich => { m with enrich := v }

/-- Request bodies: `{ url }` for transcribe, `{ text }` for the others. -/
inductive RequestBody
  | url (u : String)
  | text (t : String)
deriving DecidableEq, Repr

/-- A successful `response.data`.  `handleTranscribe` reads `.transcript`,
the other two handlers read `.result`. -/
structure ResponseData where
  transcript : String
  result : String
deriving DecidableEq, Repr

/-- Outcome of the one network call an invocation issues: success with a
payload, or failure with `error.response?.status` / `error.response?.data?.detail`
(both absent on a pure network error). -/
inductive NetResult
  | ok (data : ResponseData)
  | err (status : Option Nat) (detail : Option String)
deriving DecidableEq, Repr

/-- Error kinds of the rethrown request-helper error, classified exactly by
the `status === 429` branch of `handleApiCall`. -/
inductive ApiError
  | quotaExceeded (detail : Option String)
  | requestFailed (detail : Option String)
deriving DecidableEq, Repr

/-- How a top-level handler invocation ended: early-return on validation
failure, success, or an error from the request helper caught and swallowed by
the handler's `catch` block. -/
inductive Outcome
  | validationError
  | success
  | swallowedError (e : ApiError)
deriving DecidableEq, Repr

/-- Observable UI-boundary events: the outgoing POST (with the optional
`X-PRO-KEY` header value) and the toasts. -/
inductive Event
  | request (endpoint : String) (body : RequestBody) (proHeader : Option String)
  | toastSuccess (msg : String)
  | toastError (msg : String)
deriving DecidableEq, Repr

/-- The component state of `App`: the four text fields, the loading map,
the upgrade-modal flag (PaywallSignal), the in-memory pro key, and the
`yt-ai-pro-key` localStorage slot. -/
structure AppState where
  url : String
  transcript : String
  summary : String
  enrichment : String
  loading : LoadingMap
  isUpgradeModalOpen : Bool
  proKey : Option String
  storage : Option String
deriving DecidableEq, Repr

/-- Initial component state (the `useState` initialisers), parameterised by
nothing: fresh install, empty storage slot. -/
def initState : AppState :=
  { url := ""
    transcript := ""
    summary := ""
    enrichment := ""
    loading := { transcribe := false, summarize := false, enrich := false }
    isUpgradeModalOpen := false
    proKey := none
    storage := none }

/-- Effect 1 of App.js: on mount, copy the storage slot (if present) into the
in-memory `proKey`. -/
def loadProKey (s : AppState) : AppState :=
  match s.storage with
  | some k => { s with proKey := some k }
  | none => s

/-- JavaScript `String.prototype.trim`: strip whitespace from both ends.
Defined by structural recursion over the character list so that concrete
instances evaluate inside the kernel. -/
def jsTrim (s : String) : String :=
  ⟨((s.data.dropWhile Char.isWhitespace).reverse.dropWhile Char.isWhitespace).reverse⟩

/-- `setLoadingState(action, state)` from App.js. -/
def setLoadingState (action : Stage) (v : Bool) (s : AppState) : AppState :=
  { s with loading := s.loading.set action v }

/-- The hard-coded constant on line 58 of App.js. -/
def MOCK_PRO_KEY : String := "mngBt-Pr0-2025-a1c2d3e4f5g6h7i8j9k0-z9y8x7w6v5u4"

/-- `buyProVersion(secretKey)`: ignores its argument, writes `MOCK_PRO_KEY`
to the storage slot and to `proKey`, closes the upgrade modal, toasts
success. -/
def buyProVersion (secretKey : String) (s : AppState) : AppState × List Event :=
  ({ s with storage := some MOCK_PRO_KEY
            proKey := some MOCK_PRO_KEY
            isUpgradeModalOpen := false },
   [Event.toastSuccess "Upgrade Pro ativado! Você já pode usar ilimitadamente."])

/-- `handleApiCall(endpoint, data, action)`: sets the loading flag, issues
the one POST with the `X-PRO-KEY` header when `proKey` is present, and on
error branches on status 429 (open modal + quota toast) versus anything else
(generic error toast), rethrowing the error; the `finally` block clears the
loading flag on every path. -/
def handleApiCall (endpoint : String) (data : RequestBody) (action : Stage)
    (resp : NetResult) (s : AppState) :
    Except ApiError ResponseData × AppState × List Event :=
  let s1 := setLoadingState action true s
  let reqEv := Event.request endpoint data s1.proKey
  match resp with
  | .ok d => (.ok d, setLoadingState action false s1, [reqEv])
  | .err status detail =>
      if status = some 429 then
        (.error (.quotaExceeded detail),
         setLoadingState action false { s1 with isUpgradeModalOpen := true },
         [reqEv, Event.toastError (detail.getD "Limite de uso excedido. Faça upgrade!")])
      else
        (.error (.requestFailed detail),
         setLoadingState action false s1,
         [reqEv, Event.toastError (detail.getD ("Erro ao executar " ++ action.name))])

/-- `handleTranscribe`: empty(-after-trim) URL short-circuits with an error
toast; otherwise clears `summary` and `enrichment`, calls the helper, stores
`data.transcript` and toasts success, and swallows any helper error. -/
def handleTranscribe (resp : NetResult) (s : AppState) :
    Outcome × AppState × List Event :=
  if jsTrim s.url = "" then
    (.validationError, s, [Event.toastError "Por favor, insira uma URL do YouTube"])
  else
    let s1 := { s with summary := "", enrichment := "" }
    let res := handleApiCall "/videos/transcribe" (RequestBody.url s.url)
      Stage.transcribe resp s1
    match res.1 with
    | .ok d =>
        (.success, { res.2.1 with transcript := d.transcript },
         res.2.2 ++ [Event.toastSuccess "Transcrição concluída com sucesso!"])
    | .error e => (.swallowedError e, res.2.1, res.2.2)

/-- `handleSummarize`: empty(-after-trim) transcript short-circuits with an
error toast; otherwise calls the helper, stores `data.result` into `summary`
and toasts success, and swallows any helper error. -/
def handleSummarize (resp : NetResult) (s : AppState) :
    Outcome × AppState × List Event :=
  if jsTrim s.transcript = "" then
    (.validationError, s, [Event.toastError "Primeiro obtenha a transcrição do vídeo"])
  else
    let res := handleApiCall "/videos/summarize" (RequestBody.text s.transcript)
      Stage.summarize resp s
    match res.1 with
    | .ok d =>
        (.success, { res.2.1 with summary := d.result },
         res.2.2 ++ [Event.toastSuccess "Resumo gerado com sucesso!"])
    | .error e => (.swallowedError e, res.2.1, res.2.2)

/-- `handleEnrich`: like `handleSummarize` but storing into `enrichment`. -/
def handleEnrich (resp : NetResult) (s : AppState) :
    Outcome × AppState × List Event :=
  if jsTrim s.transcript = "" then
    (.validationError, s, [Event.toastError "Primeiro obtenha a transcrição do vídeo"])
  else
    let res := handleApiCall "/videos/enrich" (RequestBody.text s.transcript)
      Stage.enrich resp s
    match res.1 with
    | .ok d =>
        (.success, { res.2.1 with enrichment := d.result },
         res.2.2 ++ [Event.toastSuccess "Conteúdo aprimorado com sucesso!"])
    | .error e => (.swallowedError e, res.2.1, res.2.2)

/-- The `X-PRO-KEY` header values of the outgoing requests in an event
trace, in order. -/
def requestHeaders : List Event → List (Option String)
  | [] => []
  | Event.request _ _ h :: rest => h :: requestHeaders rest
  | _ :: rest => requestHeaders rest

/-- The success-toast messages in an event trace, in order. -/
def successToasts : List Event → List String
  | [] => []
  | Event.toastSuccess m :: rest => m :: successToasts rest
  | _ :: rest => successToasts rest

/-- A state with a valid URL and a transcript already obtained, used to
instantiate universally quantified theorems at a concrete input. -/
def sampleState : AppState :=
  { initState with url := "https://youtu.be/abc", transcript := "hello world" }

/-- Setting then reading the same stage's flag yields the written value. -/
theorem LoadingMap.get_set_self (m : LoadingMap) (a : Stage) (v : Bool) :
    (m.set a v).get a = v := by
  cases a <;> rfl

/-- C1: every stage invocation that reaches the network call (i.e. every
`handleApiCall` invocation) terminates with the stage's loading flag false,
on the success path, the 429 path and every other failure path alike — the
`finally` block clears it unconditionally. -/
theorem C1_loading_cleared_all_paths (endpoint : String) (data : RequestBody)
    (action : Stage) (resp : NetResult) (s : AppState) :
    ((handleApiCall endpoint data action resp s).2.1).loading.get action = false := by
  cases resp with
  | ok d =>
      simp [handleApiCall, setLoadingState, LoadingMap.get_set_self]
  | err status detail =>
      by_cases h : status = some 429 <;>
        simp [handleApiCall, setLoadingState, h, LoadingMap.get_set_self]

/-- C2: a network call answered with HTTP status 429 makes the helper open
the upgrade modal (PaywallSignal), fail with kind `QuotaExceeded` carrying
the server detail, and leave `transcript`, `summary` and `enrichment`
untouched. -/
theorem C2_quota_response (endpoint : String) (data : RequestBody)
    (action : Stage) (detail : Option String) (s : AppState) :
    (handleApiCall endpoint data action (NetResult.err (some 429) detail) s).1
        = Except.error (ApiError.quotaExceeded detail)
    ∧ (handleApiCall endpoint data action (NetResult.err (some 429) detail) s).2.1.isUpgradeModalOpen
        = true
    ∧ (handleApiCall endpoint data action (NetResult.err (some 429) detail) s).2.1.transcript
        = s.transcript
    ∧ (handleApiCall endpoint data action (NetResult.err (some 429) detail) s).2.1.summary
        = s.summary
    ∧ (handleApiCall endpoint data action (NetResult.err (some 429) detail) s).2.1.enrichment
        = s.enrichment := by
  refine ⟨rfl, ?_, ?_, ?_, ?_⟩ <;>
    simp [handleApiCall, setLoadingState]

/-- C8: the upgrade action is idempotent on the observable state (storage
slot, in-memory key, modal flag): applying it twice with the same token
yields the same state as applying it once. -/
theorem C8_grant_idempotent (t : String) (s : AppState) :
    (buyProVersion t (buyProVersion t s).1).1 = (buyProVersion t s).1 := rfl

/-- C9: the upgrade action's effect is independent of its token argument —
any two tokens produce identical state and events, and the result always
stores the hard-coded `MOCK_PRO_KEY` into the storage slot and in-memory
key and closes the modal. -/
theorem C9_upgrade_token_independent (t1 t2 : String) (s : AppState) :
    buyProVersion t1 s = buyProVersion t2 s
    ∧ (buyProVersion t1 s).1.storage = some MOCK_PRO_KEY
    ∧ (buyProVersion t1 s).1.proKey = some MOCK_PRO_KEY
    ∧ (buyProVersion t1 s).1.isUpgradeModalOpen = false :=
  ⟨rfl, rfl, rfl, rfl⟩

/-- C10: each UI-boundary handler is a total function that swallows every
error from the request helper: on any error response its outcome is never
`success`, no success toast is emitted, and the stage's own PipelineState
field is left exactly as it was. -/
theorem C10_handlers_swallow_errors (status : Option Nat)
    (detail : Option String) (s : AppState) :
    ((handleTranscribe (NetResult.err status detail) s).2.1.transcript = s.transcript
      ∧ successToasts (handleTranscribe (NetResult.err status detail) s).2.2 = []
      ∧ (handleTranscribe (NetResult.err status detail) s).1 ≠ Outcome.success)
    ∧ ((handleSummarize (NetResult.err status detail) s).2.1.summary = s.summary
      ∧ successToasts (handleSummarize (NetResult.err status detail) s).2.2 = []
      ∧ (handleSummarize (NetResult.err status detail) s).1 ≠ Outcome.success)
    ∧ ((handleEnrich (NetResult.err status detail) s).2.1.enrichment = s.enrichment
      ∧ successToasts (handleEnrich (NetResult.err status detail) s).2.2 = []
      ∧ (handleEnrich (NetResult.err status detail) s).1 ≠ Outcome.success) := by
  by_cases hu : jsTrim s.url = "" <;> by_cases ht : jsTrim s.transcript = "" <;>
    by_cases h429 : status = some 429 <;>
      simp [handleTranscribe, handleSummarize, handleEnrich, handleApiCall,
            setLoadingState, successToasts, hu, ht, h429]

/-- C4: a transcribe invocation that passes URL validation leaves `summary`
and `enrichment` empty in its final state whatever the network outcome
(success, 429 or other failure), and issues exactly one network call — the
clearing precedes the call in the handler and nothing after restores the
fields. -/
theorem C4_transcribe_clears_derived (resp : NetResult) (s : AppState)
    (h : jsTrim s.url ≠ "") :
    (handleTranscribe resp s).2.1.summary = ""
    ∧ (handleTranscribe resp s).2.1.enrichment = ""
    ∧ (requestHeaders (handleTranscribe resp s).2.2).length = 1 := by
  cases resp with
  | ok d =>
      simp [handleTranscribe, handleApiCall, setLoadingState, requestHeaders, h]
  | err status detail =>
      by_cases h429 : status = some 429 <;>
        simp [handleTranscribe, handleApiCall, setLoadingState, requestHeaders, h, h429]

/-- C4 witness: at URL "https://youtu.be/abc" and a 429 response, the final
state has empty `summary` and `enrichment` and one request was issued. -/
theorem C4_witness :
    (handleTranscribe (NetResult.err (some 429) (some "limit reached"))
        { initState with url := "https://youtu.be/abc" }).2.1.summary = ""
    ∧ (handleTranscribe (NetResult.err (some 429) (some "limit reached"))
        { initState with url := "https://youtu.be/abc" }).2.1.enrichment = ""
    ∧ (requestHeaders (handleTranscribe (NetResult.err (some 429) (some "limit reached"))
        { initState with url := "https://youtu.be/abc" }).2.2).length = 1 :=
  C4_transcribe_clears_derived (NetResult.err (some 429) (some "limit reached"))
    { initState with url := "https://youtu.be/abc" } (by decide)

/-- C6: a network call answered with any non-429 failure (including a pure
network error with no status) fails with kind `RequestFailed`, leaves the
upgrade modal and all three PipelineState fields unchanged, and toasts the
server detail when present or the generic per-stage message otherwise. -/
theorem C6_request_failed (endpoint : String) (data : RequestBody)
    (action : Stage) (status : Option Nat) (detail : Option String)
    (s : AppState) (h : status ≠ some 429) :
    (handleApiCall endpoint data action (NetResult.err status detail) s).1
        = Except.error (ApiError.requestFailed detail)
    ∧ (handleApiCall endpoint data action (NetResult.err status detail) s).2.1.isUpgradeModalOpen
        = s.isUpgradeModalOpen
    ∧ (handleApiCall endpoint data action (NetResult.err status detail) s).2.1.transcript
        = s.transcript
    ∧ (handleApiCall endpoint data action (NetResult.err status detail) s).2.1.summary
        = s.summary
    ∧ (handleApiCall endpoint data action (NetResult.err status detail) s).2.1.enrichment
        = s.enrichment
    ∧ (handleApiCall endpoint data action (NetResult.err status detail) s).2.2
        = [Event.request endpoint data s.proKey,
           Event.toastError (detail.getD ("Erro ao executar " ++ action.name))] := by
  refine ⟨?_, ?_, ?_, ?_, ?_, ?_⟩ <;>
    simp [handleApiCall, setLoadingState, h]

/-- C6 witness: a 500 response with detail "boom" on the summarize endpoint
fails with `RequestFailed (some "boom")`, leaves the modal closed and the
pipeline fields of `sampleState` unchanged, and toasts "boom". -/
theorem C6_witness :
    (handleApiCall "/videos/summarize" (RequestBody.text "hello world")
        Stage.summarize (NetResult.err (some 500) (some "boom")) sampleState).1
        = Except.error (ApiError.requestFailed (some "boom"))
    ∧ (handleApiCall "/videos/summarize" (RequestBody.text "hello world")
        Stage.summarize (NetResult.err (some 500) (some "boom")) sampleState).2.1.isUpgradeModalOpen
        = sampleState.isUpgradeModalOpen
    ∧ (handleApiCall "/videos/summarize" (RequestBody.text "hello world")
        Stage.summarize (NetResult.err (some 500) (some "boom")) sampleState).2.1.transcript
        = sampleState.transcript
    ∧ (handleApiCall "/videos/summarize" (RequestBody.text "hello world")
        Stage.summarize (NetResult.err (some 500) (some "boom")) sampleState).2.1.summary
        = sampleState.summary
    ∧ (handleApiCall "/videos/summarize" (RequestBody.text "hello world")
        Stage.summarize (NetResult.err (some 500) (some "boom")) sampleState).2.1.enrichment
        = sampleState.enrichment
    ∧ (handleApiCall "/videos/summarize" (RequestBody.text "hello world")
        Stage.summarize (NetResult.err (some 500) (some "boom")) sampleState).2.2
        = [Event.request "/videos/summarize" (RequestBody.text "hello world") none,
           Event.toastError "boom"] :=
  C6_request_failed "/videos/summarize" (RequestBody.text "hello world")
    Stage.summarize (some 500) (some "boom") sampleState (by decide)

/-- C7: a successful network call stores the payload into exactly the
stage's own PipelineState field, with a success toast following the single
request event; on any failed call no stage output is written — the success
branch is the only writer. (For transcribe, `summary` and `enrichment` hold
the cleared-empty values of the stale-result rule, not stage output.) -/
theorem C7_success_stores_result (d : ResponseData) (s : AppState) :
    (jsTrim s.url ≠ "" →
      (handleTranscribe (NetResult.ok d) s).1 = Outcome.success
      ∧ (handleTranscribe (NetResult.ok d) s).2.1.transcript = d.transcript
      ∧ (handleTranscribe (NetResult.ok d) s).2.2
          = [Event.request "/videos/transcribe" (RequestBody.url s.url) s.proKey,
             Event.toastSuccess "Transcrição concluída com sucesso!"])
    ∧ (jsTrim s.transcript ≠ "" →
      (handleSummarize (NetResult.ok d) s).1 = Outcome.success
      ∧ (handleSummarize (NetResult.ok d) s).2.1.summary = d.result
      ∧ (handleSummarize (NetResult.ok d) s).2.1.transcript = s.transcript
      ∧ (handleSummarize (NetResult.ok d) s).2.1.enrichment = s.enrichment
      ∧ (handleSummarize (NetResult.ok d) s).2.2
          = [Event.request "/videos/summarize" (RequestBody.text s.transcript) s.proKey,
             Event.toastSuccess "Resumo gerado com sucesso!"]
      ∧ (handleEnrich (NetResult.ok d) s).1 = Outcome.success
      ∧ (handleEnrich (NetResult.ok d) s).2.1.enrichment = d.result
      ∧ (handleEnrich (NetResult.ok d) s).2.1.transcript = s.transcript
      ∧ (handleEnrich (NetResult.ok d) s).2.1.summary = s.summary
      ∧ (handleEnrich (NetResult.ok d) s).2.2
          = [Event.request "/videos/enrich" (RequestBody.text s.transcript) s.proKey,
             Event.toastSuccess "Conteúdo aprimorado com sucesso!"])
    ∧ (∀ status detail,
      (handleTranscribe (NetResult.err status detail) s).2.1.transcript = s.transcript
      ∧ (handleSummarize (NetResult.err status detail) s).2.1.summary = s.summary
      ∧ (handleEnrich (NetResult.err status detail) s).2.1.enrichment = s.enrichment) := by
  refine ⟨fun hu => ?_, fun ht => ?_, fun status detail => ?_⟩
  · simp [handleTranscribe, handleApiCall, setLoadingState, hu]
  · simp [handleSummarize, handleEnrich, handleApiCall, setLoadingState, ht]
  · by_cases hu : jsTrim s.url = "" <;> by_cases ht : jsTrim s.transcript = "" <;>
      by_cases h429 : status = some 429 <;>
        simp [handleTranscribe, handleSummarize, handleEnrich, handleApiCall,
              setLoadingState, hu, ht, h429]

/-- C7 witness: on `sampleState` with payload transcript "hello world" and
result "summary text", the transcribe success path stores "hello world"
into `transcript` and raises the success toast. -/
theorem C7_witness :
    (handleTranscribe (NetResult.ok ⟨"hello world", "summary text"⟩) sampleState).1
        = Outcome.success
    ∧ (handleTranscribe (NetResult.ok ⟨"hello world", "summary text"⟩) sampleState).2.1.transcript
        = "hello world"
    ∧ (handleTranscribe (NetResult.ok ⟨"hello world", "summary text"⟩) sampleState).2.2
        = [Event.request "/videos/transcribe" (RequestBody.url sampleState.url) sampleState.proKey,
           Event.toastSuccess "Transcrição concluída com sucesso!"] :=
  (C7_success_stores_result ⟨"hello world", "summary text"⟩ sampleState).1 (by decide)

/-- C3 counterexample: `buyProVersion` ignores its token argument, so after
granting with token "tok-1" the next stage invocation carries the hard-coded
`MOCK_PRO_KEY` in its request, not "tok-1" — refuting the claim that the
granted token itself is injected. -/
theorem C3_counterexample :
    requestHeaders (handleSummarize (NetResult.ok ⟨"", "summary text"⟩)
        (buyProVersion "tok-1" sampleState).1).2.2
      = [some MOCK_PRO_KEY]
    ∧ requestHeaders (handleSummarize (NetResult.ok ⟨"", "summary text"⟩)
        (buyProVersion "tok-1" sampleState).1).2.2
      ≠ [some "tok-1"] := by
  constructor <;> decide

/-- C3 amended: after the upgrade action is invoked (with any caller token),
every subsequent stage invocation carries the hard-coded `MOCK_PRO_KEY` as
the `X-PRO-KEY` request field; the handlers never change the in-memory key,
so the property persists across invocations; and while no key has been
granted (`proKey` absent) the request carries no token field. -/
theorem C3_amended_token_injection (t : String) (endpoint : String)
    (data : RequestBody) (action : Stage) (resp : NetResult)
    (s s2 : AppState) :
    requestHeaders (handleApiCall endpoint data action resp
        (buyProVersion t s).1).2.2 = [some MOCK_PRO_KEY]
    ∧ (handleTranscribe resp s).2.1.proKey = s.proKey
    ∧ (handleSummarize resp s).2.1.proKey = s.proKey
    ∧ (handleEnrich resp s).2.1.proKey = s.proKey
    ∧ (s2.proKey = none →
        requestHeaders (handleApiCall endpoint data action resp s2).2.2 = [none]) := by
  have hdr : ∀ s3 : AppState,
      requestHeaders (handleApiCall endpoint data action resp s3).2.2 = [s3.proKey] := by
    intro s3
    cases resp with
    | ok d => simp [handleApiCall, setLoadingState, requestHeaders]
    | err status detail =>
        by_cases h429 : status = some 429 <;>
          simp [handleApiCall, setLoadingState, requestHeaders, h429]
  refine ⟨?_, ?_, ?_, ?_, fun h2 => ?_⟩
  · exact hdr (buyProVersion t s).1
  · by_cases hu : jsTrim s.url = "" <;> cases resp with
    | ok d => simp [handleTranscribe, handleApiCall, setLoadingState, hu]
    | err status detail =>
        by_cases h429 : status = some 429 <;>
          simp [handleTranscribe, handleApiCall, setLoadingState, hu, h429]
  · by_cases ht : jsTrim s.transcript = "" <;> cases resp with
    | ok d => simp [handleSummarize, handleApiCall, setLoadingState, ht]
    | err status detail =>
        by_cases h429 : status = some 429 <;>
          simp [handleSummarize, handleApiCall, setLoadingState, ht, h429]
  · by_cases ht : jsTrim s.transcript = "" <;> cases resp with
    | ok d => simp [handleEnrich, handleApiCall, setLoadingState, ht]
    | err status detail =>
        by_cases h429 : status = some 429 <;>
          simp [handleEnrich, handleApiCall, setLoadingState, ht, h429]
  · rw [hdr s2, h2]

/-- C3 witness: with no key granted (`initState`), a summarize call carries
no token field. -/
theorem C3_witness :
    requestHeaders (handleApiCall "/videos/summarize" (RequestBody.text "hello world")
        Stage.summarize (NetResult.ok ⟨"", "summary text"⟩) initState).2.2 = [none] :=
  (C3_amended_token_injection "tok-1" "/videos/summarize" (RequestBody.text "hello world")
    Stage.summarize (NetResult.ok ⟨"", "summary text"⟩) initState initState).2.2.2.2 rfl

/-- C5 counterexample: with the whitespace-only transcript " " — a non-empty
string — a summarize invocation still fails with `ValidationError`, because
the code tests the transcript after `trim()`; this refutes the stated
"if and only if the transcript is empty" with empty read as the empty
string. -/
theorem C5_counterexample :
    (handleSummarize (NetResult.ok ⟨"", "summary text"⟩)
        { initState with transcript := " " }).1 = Outcome.validationError
    ∧ ({ initState with transcript := " " } : AppState).transcript ≠ "" := by
  constructor <;> decide

/-- C5 amended: a summarize or enrich invocation fails with
`ValidationError` exactly when the transcript is empty after trimming
whitespace, and a transcribe invocation exactly when the URL is empty after
trimming; in every such validation failure the state is returned unchanged
and no request event is emitted. -/
theorem C5_amended_validation_iff (resp : NetResult) (s : AppState) :
    ((handleTranscribe resp s).1 = Outcome.validationError ↔ jsTrim s.url = "")
    ∧ ((handleSummarize resp s).1 = Outcome.validationError ↔ jsTrim s.transcript = "")
    ∧ ((handleEnrich resp s).1 = Outcome.validationError ↔ jsTrim s.transcript = "")
    ∧ (jsTrim s.url = "" →
        (handleTranscribe resp s).2.1 = s
        ∧ requestHeaders (handleTranscribe resp s).2.2 = [])
    ∧ (jsTrim s.transcript = "" →
        (handleSummarize resp s).2.1 = s
        ∧ requestHeaders (handleSummarize resp s).2.2 = []
        ∧ (handleEnrich resp s).2.1 = s
        ∧ requestHeaders (handleEnrich resp s).2.2 = []) := by
  by_cases hu : jsTrim s.url = "" <;> by_cases ht : jsTrim s.transcript = "" <;>
    cases resp with
    | ok d =>
        simp [handleTranscribe, handleSummarize, handleEnrich, handleApiCall,
              setLoadingState, requestHeaders, hu, ht]
    | err status detail =>
        by_cases h429 : status = some 429 <;>
          simp [handleTranscribe, handleSummarize, handleEnrich, handleApiCall,
                setLoadingState, requestHeaders, hu, ht, h429]

/-- C5 witness: on the fresh state (empty URL), a transcribe invocation
leaves the state untouched and issues no request. -/
theorem C5_witness :
    (handleTranscribe (NetResult.ok ⟨"hello world", "summary text"⟩) initState).2.1
        = initState
    ∧ requestHeaders (handleTranscribe
        (NetResult.ok ⟨"hello world", "summary text"⟩) initState).2.2 = [] :=
  (C5_amended_validation_iff (NetResult.ok ⟨"hello world", "summary text"⟩)
    initState).2.2.2.1 (by decide)
